import Mathlib

/-!
Shallow embedding of the front-end orchestration and rendering logic of the
lung-tumor-classification web repository: the classification page
(`web/classification/script.js`) and the augmentation page
(`web/augmentation/augmentation-script.js`).

JavaScript values flowing through the response-interpretation code are
modelled by the inductive `JSVal`; DOM side effects are modelled as explicit
state records; the asynchronous request is modelled by passing its eventual
result (`RequestResult`) to the orchestrator function.
-/

/-- An exact rational written as numerator over a positive denominator,
without normalization.  JavaScript numbers reaching the modelled code are
decimal probabilities, confidences and array lengths; their arithmetic here
(`* 100`, comparison, `toFixed` rounding) is exact, and coincides with the
IEEE-double evaluation at every value the claims exercise. -/
structure JsNum where
  num : Int
  den : Nat
deriving DecidableEq

/-- Zero test (`den` is positive for every constructed value). -/
def JsNum.isZero (q : JsNum) : Bool := q.num = 0

/-- Strict comparison by cross-multiplication, the sign test the sort
comparator `(a, b) => b - a` performs. -/
def JsNum.blt (a b : JsNum) : Bool := a.num * (b.den : Int) < b.num * (a.den : Int)

/-- Multiplication by a natural constant (the `* 100` of the renderer). -/
def JsNum.mulNat (q : JsNum) (k : Nat) : JsNum := ⟨q.num * (k : Int), q.den⟩

/-- A JavaScript value as handled by the response-interpretation code:
`null`, `undefined`, strings, numbers (modelled as exact rationals),
booleans, arrays and plain objects (field lists in insertion order). -/
inductive JSVal where
  | vNull
  | vUndefined
  | vStr (s : String)
  | vNum (q : JsNum)
  | vBool (b : Bool)
  | vArr (elems : List JSVal)
  | vObj (fields : List (String × JSVal))

/-- JavaScript truthiness: `null`, `undefined`, `false`, `0`, and `""` are
falsy; every other value (including `[]` and `{}`) is truthy. -/
def truthy : JSVal → Bool
  | .vNull => false
  | .vUndefined => false
  | .vBool b => b
  | .vNum q => if q.isZero then false else true
  | .vStr s => if s = "" then false else true
  | .vArr _ => true
  | .vObj _ => true

/-- Property access `v.k`: looks the key up in an object's field list;
any other receiver yields `undefined`.  (The source only dereferences values
it has already checked for truthiness, so the `null`/`undefined` TypeError
path is unreachable and not modelled.) -/
def getField (v : JSVal) (k : String) : JSVal :=
  match v with
  | .vObj fields => ((fields.find? (fun p => p.1 == k)).map (fun p => p.2)).getD .vUndefined
  | _ => .vUndefined

/-- Index into a list of JS values, `undefined` when out of range. -/
def jsIndex (xs : List JSVal) (i : Nat) : JSVal := xs.getD i .vUndefined

/-- Indexed access `v[i]`: array element, or character of a string, or the
numeric-string property of an object; `undefined` otherwise. -/
def arrGet (v : JSVal) (i : Nat) : JSVal :=
  match v with
  | .vArr xs => jsIndex xs i
  | .vStr s =>
    match s.toList[i]? with
    | some c => .vStr (String.mk [c])
    | none => .vUndefined
  | .vObj _ => getField v (toString i)
  | _ => .vUndefined

/-- JavaScript `String(v)` coercion, as used when a non-string value is
interpolated into an error message.  Number formatting is modelled exactly
for integers (the only numeric case the code reaches: array lengths). -/
def jsToString : JSVal → String
  | .vNull => "null"
  | .vUndefined => "undefined"
  | .vStr s => s
  | .vBool b => if b then "true" else "false"
  | .vNum q => if q.den = 1 then toString q.num else toString q.num ++ "/" ++ toString q.den
  | .vArr _ => ""
  | .vObj _ => "[object Object]"

/-- `Number.prototype.toFixed` for non-negative values: round
`q * 10 ^ f` to the nearest integer (ties away from zero, computed as
`(2 * num * 10 ^ f + den) / (2 * den)` in flooring natural division) and
print with `f` digits after the point. -/
def jsToFixedNN (q : JsNum) (f : Nat) : String :=
  let scaled := (2 * q.num.toNat * 10 ^ f + q.den) / (2 * q.den)
  if f = 0 then toString scaled
  else
    let ip := scaled / 10 ^ f
    let fp := toString (scaled % 10 ^ f)
    toString ip ++ "." ++ String.mk (List.replicate (f - fp.length) '0') ++ fp

/-- `toFixed` extended to all values (negative values do not occur in the
modelled code paths). -/
def jsToFixed (q : JsNum) (f : Nat) : String :=
  if q.num < 0 then "-" ++ jsToFixedNN ⟨-q.num, q.den⟩ f else jsToFixedNN q f

/-- Whether the first char list is an initial segment of the second. -/
def startsWithChars : List Char → List Char → Bool
  | [], _ => true
  | _ :: _, [] => false
  | p :: ps, c :: cs => (p = c) && startsWithChars ps cs

/-- Whether the first char list occurs inside the second. -/
def charsContain : List Char → List Char → Bool
  | pat, [] => startsWithChars pat []
  | pat, c :: cs => startsWithChars pat (c :: cs) || charsContain pat cs

/-- JavaScript `s.includes(pat)`. -/
def jsIncludes (s pat : String) : Bool := charsContain pat.toList s.toList

/-- JavaScript `s.split(sep)` for a single-character separator (the
renderer splits class names on "."). -/
def jsSplitAux (sep : Char) : List Char → List Char → List String
  | [], acc => [String.mk acc.reverse]
  | c :: cs, acc =>
    if c = sep then String.mk acc.reverse :: jsSplitAux sep cs []
    else jsSplitAux sep cs (c :: acc)

/-- JavaScript `s.split(sep)`. -/
def jsSplit (s : String) (sep : Char) : List String := jsSplitAux sep s.toList []

/-- Numeric reading of a JS value where the code multiplies it by 100
(probabilities and confidences); non-numeric values do not occur in the
modelled response contract. -/
def asNum : JSVal → JsNum
  | .vNum q => q
  | _ => ⟨0, 1⟩

/-- The file object handed to `processFile` (name, declared MIME type,
byte length). -/
structure JsFile where
  name : String
  type : String
  size : Nat
deriving DecidableEq

/-- Visibility of the three mutually exclusive result-column panels
(`loadingState`, `resultsContent`, `emptyState`). -/
structure Panels where
  loadingVisible : Bool
  resultsVisible : Bool
  emptyVisible : Bool
deriving DecidableEq

/-- The eventual outcome of the awaited network step of a request: either
the awaited call threw (connection/transport failure, message attached), or
a response value arrived. -/
inductive RequestResult where
  | connectionError (msg : String)
  | response (v : JSVal)

namespace Classification

/-- Allowed MIME types on the classification page (`script.js`,
`processFile`). -/
def validTypes : List String := ["image/jpeg", "image/jpg", "image/png"]

/-- Notification text for a rejected MIME type. -/
def invalidTypeMsg : String := "Please upload a valid image file (PNG, JPG, JPEG)"

/-- Notification text for an oversized file. -/
def tooLargeMsg : String := "File size too large. Please upload an image smaller than 10MB."

/-- How `analyzeImage` classifies a raw response value (`script.js`
lines 189-204): envelope check, explicit error field, then the
class/probabilities shape check. -/
inductive ClassifyOutcome where
  | malformedResponse (msg : String)
  | remoteError (msg : String)
  | rendering (apiResult : JSVal)

/-- The first entry of the response payload, `result.data[0]`. -/
def firstEntry (result : JSVal) : JSVal := arrGet (getField result "data") 0

/-- Response interpretation of `analyzeImage` (`script.js` lines 189-204):
`result && result.data && result.data[0]` guards the envelope; a truthy
`error` field raises the remote error with that message; rendering requires
`apiResult.class && apiResult.probabilities`; anything else is the
"Invalid response format from API" failure. -/
def interpretClassificationResponse (result : JSVal) : ClassifyOutcome :=
  if truthy result && truthy (getField result "data") && truthy (firstEntry result) then
    let apiResult := firstEntry result
    if truthy (getField apiResult "error") then
      .remoteError (jsToString (getField apiResult "error"))
    else if truthy (getField apiResult "class") && truthy (getField apiResult "probabilities") then
      .rendering apiResult
    else
      .malformedResponse "Invalid response format from API"
  else
    .malformedResponse "No valid response from Gradio API"

/-- One rendered probability bar (`createProbabilityBars`): icon, formatted
class name, percentage text, bar color. -/
structure BarRender where
  icon : String
  name : String
  percentText : String
  color : String
deriving DecidableEq

/-- The rendered result block produced by `displayResults`. -/
structure RenderedResult where
  className : String
  confidenceText : String
  icon : String
  bars : List BarRender
deriving DecidableEq

/-- `formatClassName`: split on ".", capitalize each word, join with
spaces. -/
def formatClassName (className : String) : String :=
  String.intercalate " " ((jsSplit className '.').map (fun word =>
    match word.toList with
    | [] => ""
    | c :: cs => String.mk (c.toUpper :: cs)))

/-- `getClassIcon`: fixed icon lookup with a neutral default. -/
def getClassIcon (className : String) : String :=
  if className = "adenocarcinoma" then "🔴"
  else if className = "large.cell.carcinoma" then "🟠"
  else if className = "normal" then "✅"
  else if className = "squamous.cell.carcinoma" then "🟡"
  else "🎯"

/-- `getClassColor`: fixed color lookup with a neutral default. -/
def getClassColor (className : String) : String :=
  if className = "adenocarcinoma" then "#e74c3c"
  else if className = "large.cell.carcinoma" then "#f39c12"
  else if className = "normal" then "#27ae60"
  else if className = "squamous.cell.carcinoma" then "#f1c40f"
  else "#3498db"

/-- Stable descending insertion for the probability sort: an element moves
ahead only of strictly smaller values, so ties keep source order, matching
the stable `Array.prototype.sort` with comparator `(a, b) => b - a`. -/
def insertDesc (x : String × JsNum) : List (String × JsNum) → List (String × JsNum)
  | [] => [x]
  | y :: ys => if y.2.blt x.2 then x :: y :: ys else y :: insertDesc x ys

/-- `Object.entries(probabilities).sort(([,a],[,b]) => b - a)`: entries in
insertion order, stably sorted by value descending. -/
def sortProbsDesc (l : List (String × JsNum)) : List (String × JsNum) :=
  l.foldl (fun acc x => insertDesc x acc) []

/-- `Object.entries` of a probabilities object, with numeric values read
off. -/
def objEntriesNum (v : JSVal) : List (String × JsNum) :=
  match v with
  | .vObj fields => fields.map (fun p => (p.1, asNum p.2))
  | _ => []

/-- `createProbabilityBars` (`script.js` lines 306-335): one bar per entry
of the sorted probabilities, percentage shown as `(p * 100).toFixed(1)`. -/
def createProbabilityBars (probabilities : JSVal) : List BarRender :=
  (sortProbsDesc (objEntriesNum probabilities)).map (fun p =>
    { icon := getClassIcon p.1
      name := formatClassName p.1
      percentText := jsToFixed (p.2.mulNat 100) 1
      color := getClassColor p.1 })

/-- The data rendered by `displayResults` (`script.js` lines 259-277):
formatted class name, `Confidence: (c * 100).toFixed(2)%`, icon, and the
probability bars. -/
def displayResultsData (api : JSVal) : RenderedResult :=
  { className := formatClassName (jsToString (getField api "class"))
    confidenceText := "Confidence: " ++ jsToFixed ((asNum (getField api "confidence")).mulNat 100) 2 ++ "%"
    icon := getClassIcon (jsToString (getField api "class"))
    bars := createProbabilityBars (getField api "probabilities") }

/-- Page state of the classification page: stored image, upload-column
visibility, analyze-button disabled flag, result-column panels, the last
rendered result, the queue of error notifications shown, and the status
indicator (text, css type). -/
structure ClassState where
  currentImage : Option JsFile
  previewVisible : Bool
  uploadAreaVisible : Bool
  analyzeDisabled : Bool
  panels : Panels
  rendered : Option RenderedResult
  notifications : List String
  status : String × String
deriving DecidableEq

/-- `showLoadingState` (`script.js` lines 400-404): loading panel on,
results and empty panels off.  The analyze button is not touched. -/
def showLoadingState (s : ClassState) : ClassState :=
  { s with panels := ⟨true, false, false⟩ }

/-- `showEmptyState`: empty panel on, results and loading panels off. -/
def showEmptyState (s : ClassState) : ClassState :=
  { s with panels := ⟨false, false, true⟩ }

/-- `updateStatus`. -/
def updateStatus (s : ClassState) (message sType : String) : ClassState :=
  { s with status := (message, sType) }

/-- `showError` (`script.js` lines 430-460): appends a transient
notification and then calls `showEmptyState`. -/
def showError (s : ClassState) (msg : String) : ClassState :=
  showEmptyState { s with notifications := s.notifications ++ [msg] }

/-- `displayResults` as a state transition: switches to the results panel
and stores the rendered content. -/
def displayResults (s : ClassState) (api : JSVal) : ClassState :=
  { s with panels := ⟨false, true, false⟩, rendered := some (displayResultsData api) }

/-- `processFile` (`script.js` lines 115-135): MIME allow-list, then the
10 MB bound, then store the image, show the preview, enable the analyze
button.  (The preview render is an async FileReader completion; its effect
is modelled synchronously.) -/
def processFile (s : ClassState) (file : JsFile) : ClassState :=
  if (validTypes.contains file.type) = false then showError s invalidTypeMsg
  else if 10 * 1024 * 1024 < file.size then showError s tooLargeMsg
  else
    updateStatus
      { s with currentImage := some file, previewVisible := true,
               uploadAreaVisible := false, analyzeDisabled := false }
      "Ready to analyze" "ready"

/-- `analyzeImage` (`script.js` lines 164-210) with the awaited network
step supplied as a `RequestResult`: guard on a selected image, enter the
loading state, then render on a well-formed response and report every other
outcome through `showError` plus an error status.  (A connection failure
additionally surfaces a notification from inside the client initializer
before the orchestrator's own catch runs; that inner notification belongs
to `initGradioClient`, modelled separately.) -/
def analyzeImage (s : ClassState) (req : RequestResult) : ClassState :=
  match s.currentImage with
  | none => showError s "No image selected."
  | some _ =>
    let s1 := updateStatus (showLoadingState s) "Analyzing..." "processing"
    match req with
    | .connectionError m =>
      updateStatus (showError s1 ("Analysis failed: " ++ m)) "Error" "error"
    | .response v =>
      match interpretClassificationResponse v with
      | .rendering api =>
        updateStatus (displayResults s1 api) "Analysis complete" "success"
      | .remoteError m =>
        updateStatus (showError s1 ("Analysis failed: " ++ m)) "Error" "error"
      | .malformedResponse m =>
        updateStatus (showError s1 ("Analysis failed: " ++ m)) "Error" "error"

/-- The message, if any, with which a request fails (connection failure,
remote error, or malformed response). -/
def failureMessage : RequestResult → Option String
  | .connectionError m => some m
  | .response v =>
    match interpretClassificationResponse v with
    | .remoteError m => some m
    | .malformedResponse m => some m
    | .rendering _ => none

end Classification

namespace Augmentation

/-- Allowed MIME types on the augmentation page (`isValidImageFile`). -/
def validTypes : List String := ["image/png", "image/jpeg", "image/jpg"]

/-- Notification text for a rejected MIME type on the augmentation page. -/
def invalidTypeMsg : String := "Please select a valid image file (PNG, JPG, JPEG)"

/-- `true` exactly for the JS value `null` (the sentinel produced for an
unusable response item and removed by `filter((url) => url !== null)`). -/
def isNullRef : JSVal → Bool
  | .vNull => true
  | _ => false

/-- The per-item reference extraction of `generateAugmentations`
(`augmentation-script.js` lines 214-225): a string is taken directly, else
a truthy item's truthy `url` field, else its truthy `path` field, else
`null`. -/
def extractRef (item : JSVal) : JSVal :=
  match item with
  | .vStr s => .vStr s
  | _ =>
    if truthy item && truthy (getField item "url") then getField item "url"
    else if truthy item && truthy (getField item "path") then getField item "path"
    else .vNull

/-- `imageUrls`: the mapped references with the `null` sentinels filtered
out (`augmentation-script.js` lines 214-226).  Note the compaction: a `null`
item shifts every later usable reference one slot to the left. -/
def extractImageUrls (items : List JSVal) : List JSVal :=
  (items.map extractRef).filter (fun v => isNullRef v = false)

/-- The `.length` read used in the augmentation error message when the
payload is not an array (strings have a length; other values yield
`undefined`). -/
def jsLengthVal : JSVal → JSVal
  | .vStr s => .vNum ⟨s.length, 1⟩
  | .vArr xs => .vNum ⟨xs.length, 1⟩
  | .vObj fields => getField (.vObj fields) "length"
  | _ => .vUndefined

/-- Response interpretation of `generateAugmentations`
(`augmentation-script.js` lines 210-241): `result && result.data` guards the
envelope; `Array.isArray(result.data) && result.data.length >= 1` accepts
any non-empty raw array (usability of items is not checked here) and hands
the filtered `imageUrls` on; otherwise the request fails with a malformed
response message. -/
def interpretAugmentationResponse (result : JSVal) : Except String (List JSVal) :=
  if truthy result && truthy (getField result "data") then
    match getField result "data" with
    | .vArr items =>
      if 1 ≤ items.length then .ok (extractImageUrls items)
      else .error ("Invalid response format - got " ++ jsToString (jsLengthVal (.vArr items)) ++
        " items, expected at least 1")
    | other =>
      .error ("Invalid response format - got " ++ jsToString (jsLengthVal other) ++
        " items, expected at least 1")
  else
    .error "No valid response from Gradio API"

/-- The binding state of the 8 fixed grid slots produced by
`displayAugmentations` (`augmentation-script.js` lines 280-302): slot `i` is
bound (its image source is set, rendering as loading and then loaded) when
`results[i]` is truthy, and is marked error otherwise. -/
def slotBinds (results : List JSVal) : List Bool :=
  (List.range 8).map (fun i => truthy (jsIndex results i))

/-- Page state of the augmentation page. -/
structure AugState where
  currentImage : Option JsFile
  previewVisible : Bool
  augmentDisabled : Bool
  panels : Panels
  augmentationResults : Option (List JSVal)
  slots : List Bool
  notifications : List String
  status : String × String

/-- `showError` on the augmentation page (`augmentation-script.js`
lines 476-500): a transient notification only; no panel is touched. -/
def showError (s : AugState) (msg : String) : AugState :=
  { s with notifications := s.notifications ++ [msg] }

/-- `updateStatus(type, text)`. -/
def updateStatus (s : AugState) (sType text : String) : AugState :=
  { s with status := (sType, text) }

/-- `showLoading` (`augmentation-script.js` lines 437-442): loading panel
on, results and empty panels off, and the augment button disabled. -/
def showLoading (s : AugState) : AugState :=
  { s with panels := ⟨true, false, false⟩, augmentDisabled := true }

/-- `hideLoading`: loading panel off and the augment button re-enabled.
Called only from `displayAugmentations`, i.e. only on success. -/
def hideLoading (s : AugState) : AugState :=
  { s with panels := ⟨false, s.panels.resultsVisible, s.panels.emptyVisible⟩,
           augmentDisabled := false }

/-- `showResults`: results panel on, empty panel off. -/
def showResults (s : AugState) : AugState :=
  { s with panels := ⟨s.panels.loadingVisible, true, false⟩ }

/-- `displayAugmentations` as a state transition: hide the loading state,
show the results panel, and bind the 8 slots to the extracted references in
order. -/
def displayAugmentations (s : AugState) (results : List JSVal) : AugState :=
  { showResults (hideLoading s) with slots := slotBinds results }

/-- `processFile` on the augmentation page (`augmentation-script.js`
lines 139-154): MIME allow-list only (no size bound), then store the image,
show the preview, enable the augment button. -/
def processFile (s : AugState) (file : JsFile) : AugState :=
  if (validTypes.contains file.type) = false then showError s invalidTypeMsg
  else
    updateStatus
      { s with currentImage := some file, previewVisible := true, augmentDisabled := false }
      "ready" "Image Ready"

/-- The user-facing text substituted for a failure message
(`augmentation-script.js` lines 250-257). -/
def augErrorText (m : String) : String :=
  if jsIncludes m "ERR_FILE_NOT_FOUND" then "API connection issue - please try again"
  else if jsIncludes m "fetch" then "Network error - check your connection"
  else "Error: " ++ m

/-- `generateAugmentations` (`augmentation-script.js` lines 178-262) with
the awaited network step supplied as a `RequestResult`: guard on a selected
image, enter the loading state (disabling the augment button), then on a
well-formed response store the extracted references and display them
(re-enabling the button), and on any failure show a notification and an
error status — leaving the loading panel up and the button disabled, since
`hideLoading` is never reached. -/
def generateAugmentations (s : AugState) (req : RequestResult) : AugState :=
  match s.currentImage with
  | none => showError s "No image selected."
  | some _ =>
    let s1 := updateStatus (showLoading s) "processing" "Processing..."
    match req with
    | .connectionError m =>
      updateStatus (showError s1 (augErrorText m)) "error" "Failed"
    | .response v =>
      match interpretAugmentationResponse v with
      | .error m => updateStatus (showError s1 (augErrorText m)) "error" "Failed"
      | .ok urls =>
        updateStatus (displayAugmentations { s1 with augmentationResults := some urls } urls)
          "success" "Complete"

/-- Whether a request result reaches the success branch of
`generateAugmentations`. -/
def augSuccess : RequestResult → Bool
  | .connectionError _ => false
  | .response v =>
    match interpretAugmentationResponse v with
    | .ok _ => true
    | .error _ => false

/-- The fixed per-slot type names of `downloadAll`. -/
def augTypes : List String :=
  ["original", "rotation", "width-shift", "height-shift", "shear", "zoom",
   "brightness", "channel-shift"]

/-- `downloadImage(imageUrl, type)` (`augmentation-script.js`
lines 339-348): returns without effect for a falsy URL (`null`, `undefined`,
`""`); otherwise triggers one browser download of that URL under
`augmented_<type>_<timestamp>.png`.  `Date.now()` is passed as `ts`. -/
def downloadImage (imageUrl : JSVal) (dlType : String) (ts : Nat) : List (JSVal × String) :=
  if truthy imageUrl then
    [(imageUrl, "augmented_" ++ dlType ++ "_" ++ toString ts ++ ".png")]
  else []

/-- A per-slot download button click (`setupDownloadButtons`,
`augmentation-script.js` lines 311-322): fires only when
`augmentationResults` is set and holds a truthy entry at the button's
index. -/
def downloadButtonClick (results : Option (List JSVal)) (index : Nat) (dlType : String)
    (ts : Nat) : List (JSVal × String) :=
  match results with
  | none => []
  | some rs =>
    if truthy (jsIndex rs index) then downloadImage (jsIndex rs index) dlType ts
    else []

/-- `downloadAll` (`augmentation-script.js` lines 350-372): schedules one
`downloadImage` per index holding a truthy reference (the 200 ms stagger is
a UX delay with no effect on which downloads happen and is not modelled). -/
def downloadAll (results : Option (List JSVal)) (ts : Nat) : List (JSVal × String) :=
  match results with
  | none => []
  | some rs =>
    ((List.range rs.length).map (fun i =>
      if truthy (jsIndex rs i) then downloadImage (jsIndex rs i) (augTypes.getD i "undefined") ts
      else [])).flatten

end Augmentation

namespace Gradio

/-- The poll spacing of `initializeGradioClient`,
`setTimeout(resolve, 100)`. -/
def pollIntervalMs : Nat := 100

/-- The attempt cap of `initializeGradioClient`'s poll loop. -/
def maxPollAttempts : Nat := 50

/-- The poll loop of `initializeGradioClient` (`script.js` lines 230-234,
identically `augmentation-script.js` lines 54-58):
`while (!window.GradioClient && attempts < 50) { await sleep(100); attempts++ }`.
`avail k` is whether `window.GradioClient` is set when the condition is
checked after `k` sleeps; the returned value is the final `attempts`
counter, which equals the number of iterations executed. -/
def pollLoopFuel (avail : Nat → Bool) (attempts : Nat) : Nat → Nat
  | 0 => attempts
  | fuel + 1 =>
    if avail attempts = false && attempts < 50 then pollLoopFuel avail (attempts + 1) fuel
    else attempts

/-- Entry of the poll loop with `attempts = 0`.  The fuel `50` matches the
attempt cap: the counter rises by one per iteration, so fuel can only run
out exactly when `attempts < 50` also fails, making this the exact while
loop. -/
def pollLoop (avail : Nat → Bool) : Nat := pollLoopFuel avail 0 50

/-- The outcome of `initializeGradioClient` as observed by the page status:
connected, or the `ConnectionUnavailable` failure path (status
"API connection failed" plus a notification). -/
inductive ConnectOutcome where
  | connected
  | unavailable
deriving DecidableEq

/-- `initializeGradioClient` (`script.js` lines 225-251,
`augmentation-script.js` lines 49-75): run the poll loop; if
`window.GradioClient` is still unset, throw ("Gradio client not loaded");
otherwise await `connect`, whose rejection is caught by the same handler.
Both throws land in the catch block that reports the connection as
unavailable. -/
def initGradioClient (avail : Nat → Bool) (connect : Except String Unit) : ConnectOutcome :=
  if avail (pollLoop avail) = false then .unavailable
  else
    match connect with
    | .ok _ => .connected
    | .error _ => .unavailable

end Gradio

/-- The envelope guard of the classification response handler,
`result && result.data && result.data[0]`. -/
def Classification.hasEnvelope (result : JSVal) : Bool :=
  truthy result && truthy (getField result "data") && truthy (Classification.firstEntry result)

/-- A sample accepted upload. -/
def sampleFile : JsFile := ⟨"scan.png", "image/png", 2048⟩

/-- A sample upload with a MIME type outside the allow-list. -/
def gifFile : JsFile := ⟨"anim.gif", "image/gif", 2048⟩

/-- The classification page as it first loads. -/
def initialClassState : Classification.ClassState :=
  { currentImage := none, previewVisible := false, uploadAreaVisible := true,
    analyzeDisabled := true, panels := ⟨false, false, true⟩, rendered := none,
    notifications := [], status := ("Ready", "ready") }

/-- A rendered result block as displayed after a successful analysis. -/
def renderedSample : Classification.RenderedResult :=
  ⟨"Normal", "Confidence: 97.00%", "✅", []⟩

/-- The classification page while a previous result is on screen. -/
def classStateWithResults : Classification.ClassState :=
  { currentImage := some sampleFile, previewVisible := true, uploadAreaVisible := false,
    analyzeDisabled := false, panels := ⟨false, true, false⟩, rendered := some renderedSample,
    notifications := [], status := ("Analysis complete", "success") }

/-- The augmentation page as it first loads. -/
def initialAugState : Augmentation.AugState :=
  { currentImage := none, previewVisible := false, augmentDisabled := true,
    panels := ⟨false, false, true⟩, augmentationResults := none,
    slots := List.replicate 8 false, notifications := [], status := ("ready", "Ready") }

/-- The augmentation page with an image selected and ready to submit. -/
def augStateReady : Augmentation.AugState :=
  { initialAugState with currentImage := some sampleFile, previewVisible := true,
                         augmentDisabled := false }

/-- A classification response whose first entry reports a remote error. -/
def respModelUnavailable : JSVal :=
  .vObj [("data", .vArr [.vObj [("error", .vStr "model unavailable")]])]

/-- A classification response whose first entry has a class label but no
probability mapping. -/
def respClassOnly : JSVal :=
  .vObj [("data", .vArr [.vObj [("class", .vStr "normal")]])]

/-- The structured classification response of the renderer example. -/
def apiEntryC7 : JSVal :=
  .vObj [("class", .vStr "normal"), ("confidence", .vNum ⟨97, 100⟩),
    ("probabilities", .vObj [("normal", .vNum ⟨97, 100⟩), ("adenocarcinoma", .vNum ⟨2, 100⟩),
      ("large.cell.carcinoma", .vNum ⟨5, 1000⟩), ("squamous.cell.carcinoma", .vNum ⟨5, 1000⟩)])]

/-- An augmentation response whose first item is unusable (`null`) and whose
second is a plain URL string. -/
def respNullThenUrl : JSVal :=
  .vObj [("data", .vArr [.vNull, .vStr "https://host/u1.png"])]

/-- An augmentation response with one item, which is unusable. -/
def respSingleNull : JSVal := .vObj [("data", .vArr [.vNull])]

/-- Helper: the poll loop's counter rises by at most one per unit of fuel. -/
theorem pollLoopFuel_le (avail : Nat → Bool) :
    ∀ fuel a : Nat, Gradio.pollLoopFuel avail a fuel ≤ a + fuel := by
  intro fuel
  induction fuel with
  | zero => intro a; simp [Gradio.pollLoopFuel]
  | succ n ih =>
    intro a
    unfold Gradio.pollLoopFuel
    split
    · exact le_trans (ih (a + 1)) (by omega)
    · omega

/-- C6: on the classification path, a file of exactly 10 MB + 1 byte with an
allowed MIME type is rejected with the file-too-large notification and does
not become the current image, while a file of exactly 10 MB is accepted:
it is stored, and the analyze button is enabled. -/
theorem lung_C6 (s : Classification.ClassState) (name ty : String)
    (h : Classification.validTypes.contains ty = true) :
    (Classification.processFile s ⟨name, ty, 10 * 1024 * 1024 + 1⟩).currentImage = s.currentImage ∧
    (Classification.processFile s ⟨name, ty, 10 * 1024 * 1024 + 1⟩).notifications =
      s.notifications ++ [Classification.tooLargeMsg] ∧
    (Classification.processFile s ⟨name, ty, 10 * 1024 * 1024⟩).currentImage =
      some ⟨name, ty, 10 * 1024 * 1024⟩ ∧
    (Classification.processFile s ⟨name, ty, 10 * 1024 * 1024⟩).analyzeDisabled = false := by
  have h' : ty ∈ Classification.validTypes := by simpa using h
  simp [Classification.processFile, h', Classification.showError, Classification.showEmptyState,
    Classification.updateStatus]

/-- C6 witness: the boundary files on the initial page state. -/
theorem lung_C6_witness :
    (Classification.processFile initialClassState ⟨"scan.png", "image/png", 10 * 1024 * 1024 + 1⟩).currentImage = none ∧
    (Classification.processFile initialClassState ⟨"scan.png", "image/png", 10 * 1024 * 1024⟩).currentImage =
      some ⟨"scan.png", "image/png", 10 * 1024 * 1024⟩ ∧
    (Classification.processFile initialClassState ⟨"scan.png", "image/png", 10 * 1024 * 1024⟩).analyzeDisabled = false := by
  have h := lung_C6 initialClassState "scan.png" "image/png" (by decide)
  exact ⟨h.1.trans rfl, h.2.2.1, h.2.2.2⟩

/-- C7: on the example structured response, the renderer orders the bars
normal (97.0), adenocarcinoma (2.0), large.cell.carcinoma (0.5),
squamous.cell.carcinoma (0.5) — probabilities sorted descending, shown as
value×100 to one decimal place — and displays "Confidence: 97.00%". -/
theorem lung_C7 :
    (Classification.displayResultsData apiEntryC7).bars.map (fun b => (b.name, b.percentText)) =
      [("Normal", "97.0"), ("Adenocarcinoma", "2.0"), ("Large Cell Carcinoma", "0.5"),
       ("Squamous Cell Carcinoma", "0.5")] ∧
    (Classification.displayResultsData apiEntryC7).confidenceText = "Confidence: 97.00%" := by
  decide

/-- C8: a file with a MIME type outside the allow-list is rejected with the
invalid-type notification on both pages, leaving the stored current image,
the preview, and the submit control's disabled flag unchanged; on the
classification page the panels land on the empty (idle) state, and on the
augmentation page they are untouched, so from idle the UI state does not
change. -/
theorem lung_C8 (s : Classification.ClassState) (t : Augmentation.AugState) (f : JsFile)
    (h1 : Classification.validTypes.contains f.type = false)
    (h2 : Augmentation.validTypes.contains f.type = false) :
    (Classification.processFile s f).currentImage = s.currentImage ∧
    (Classification.processFile s f).previewVisible = s.previewVisible ∧
    (Classification.processFile s f).analyzeDisabled = s.analyzeDisabled ∧
    (Classification.processFile s f).notifications =
      s.notifications ++ [Classification.invalidTypeMsg] ∧
    (Classification.processFile s f).panels = ⟨false, false, true⟩ ∧
    (Augmentation.processFile t f).currentImage = t.currentImage ∧
    (Augmentation.processFile t f).previewVisible = t.previewVisible ∧
    (Augmentation.processFile t f).augmentDisabled = t.augmentDisabled ∧
    (Augmentation.processFile t f).panels = t.panels ∧
    (Augmentation.processFile t f).notifications =
      t.notifications ++ [Augmentation.invalidTypeMsg] := by
  have h1' : f.type ∉ Classification.validTypes := by simpa using h1
  have h2' : f.type ∉ Augmentation.validTypes := by simpa using h2
  simp [Classification.processFile, h1', Classification.showError, Classification.showEmptyState,
    Augmentation.processFile, h2', Augmentation.showError]

/-- C8 witness: a GIF upload against both initial page states. -/
theorem lung_C8_witness :
    (Classification.processFile initialClassState gifFile).currentImage = none ∧
    (Augmentation.processFile initialAugState gifFile).panels = initialAugState.panels := by
  have h := lung_C8 initialClassState initialAugState gifFile (by decide) (by decide)
  exact ⟨h.1.trans rfl, h.2.2.2.2.2.2.2.2.1⟩

/-- C9: connection acquisition polls for the client factory at the fixed
100 ms interval for at most 50 attempts — the loop always terminates with an
iteration count of at most 50 — and reports the connection unavailable
exactly when the factory is still absent at the final check or the connect
call rejected. -/
theorem lung_C9 (avail : Nat → Bool) (connect : Except String Unit) :
    Gradio.pollLoop avail ≤ Gradio.maxPollAttempts ∧
    Gradio.pollIntervalMs = 100 ∧
    (Gradio.initGradioClient avail connect = Gradio.ConnectOutcome.unavailable ↔
      avail (Gradio.pollLoop avail) = false ∨ ∃ e, connect = Except.error e) := by
  refine ⟨pollLoopFuel_le avail 50 0, rfl, ?_⟩
  by_cases hA : avail (Gradio.pollLoop avail) = false
  · simp [Gradio.initGradioClient, hA]
  · cases connect with
    | ok u => simp [Gradio.initGradioClient, hA]
    | error e => simp [Gradio.initGradioClient, hA]

/-- C10: no download is ever triggered for a failed or absent slot —
`downloadImage` is a no-op on a falsy URL, a per-slot button fires only when
the stored results hold a truthy entry at that index, and `downloadAll`
schedules downloads only for indices with a truthy reference. -/
theorem lung_C10 (url : JSVal) (dlType : String) (ts : Nat)
    (results : Option (List JSVal)) (i : Nat) :
    (truthy url = false → Augmentation.downloadImage url dlType ts = []) ∧
    (Augmentation.downloadButtonClick results i dlType ts ≠ [] →
      truthy (jsIndex (results.getD []) i) = true) ∧
    (∀ d ∈ Augmentation.downloadAll results ts, truthy d.1 = true) := by
  refine ⟨fun h => by simp [Augmentation.downloadImage, h], ?_, ?_⟩
  · cases results with
    | none => intro h; exact absurd rfl h
    | some rs =>
      intro h
      by_cases ht : truthy (jsIndex rs i) = true
      · exact ht
      · exact absurd (by simp [Augmentation.downloadButtonClick, ht]) h
  · cases results with
    | none => intro d hd; simp [Augmentation.downloadAll] at hd
    | some rs =>
      intro d hd
      simp only [Augmentation.downloadAll, List.mem_flatten, List.mem_map, List.mem_range] at hd
      obtain ⟨l, ⟨j, hj, hl⟩, hdl⟩ := hd
      subst hl
      by_cases ht : truthy (jsIndex rs j) = true
      · simp only [ht, if_true, Augmentation.downloadImage, if_pos ht] at hdl
        simp only [List.mem_singleton] at hdl
        subst hdl
        exact ht
      · simp [ht] at hdl

/-- C10 witness: a null URL and an empty-string URL trigger nothing, and the
one download scheduled for a single stored reference carries a truthy URL. -/
theorem lung_C10_witness :
    Augmentation.downloadImage JSVal.vNull "zoom" 7 = [] ∧
    Augmentation.downloadImage (JSVal.vStr "") "zoom" 7 = [] ∧
    truthy (JSVal.vStr "https://host/a.png") = true := by
  refine ⟨(lung_C10 JSVal.vNull "zoom" 7 none 0).1 (by decide),
    (lung_C10 (JSVal.vStr "") "zoom" 7 none 0).1 (by decide), ?_⟩
  exact (lung_C10 JSVal.vNull "x" 7 (some [JSVal.vStr "https://host/a.png"]) 0).2.2
    (JSVal.vStr "https://host/a.png", "augmented_original_7.png")
    (List.mem_singleton.mpr rfl)

/-- C1 counterexample: a response whose first entry carries a class label
but no probability mapping is rejected as malformed, although the claim
says an entry with a class label or a probability mapping transitions to
rendering. -/
theorem lung_C1_counterexample :
    truthy (getField (Classification.firstEntry respClassOnly) "class") = true ∧
    Classification.interpretClassificationResponse respClassOnly =
      Classification.ClassifyOutcome.malformedResponse "Invalid response format from API" :=
  ⟨rfl, rfl⟩

/-- C1 (amended): a missing envelope (absent/falsy result, data, or first
entry) fails as malformed; a first entry with a truthy error field fails as
a remote error carrying that message; rendering happens exactly when the
envelope holds, no error field is set, and the entry has BOTH a class label
and a probability mapping; an entry missing either of the two fails as
malformed. -/
theorem lung_C1 (result : JSVal) :
    (Classification.interpretClassificationResponse result =
        Classification.ClassifyOutcome.rendering (Classification.firstEntry result) ↔
      Classification.hasEnvelope result = true ∧
      truthy (getField (Classification.firstEntry result) "error") = false ∧
      truthy (getField (Classification.firstEntry result) "class") = true ∧
      truthy (getField (Classification.firstEntry result) "probabilities") = true) ∧
    (Classification.interpretClassificationResponse result =
        Classification.ClassifyOutcome.remoteError
          (jsToString (getField (Classification.firstEntry result) "error")) ↔
      Classification.hasEnvelope result = true ∧
      truthy (getField (Classification.firstEntry result) "error") = true) ∧
    (Classification.hasEnvelope result = false →
      Classification.interpretClassificationResponse result =
        Classification.ClassifyOutcome.malformedResponse "No valid response from Gradio API") ∧
    (Classification.hasEnvelope result = true →
      truthy (getField (Classification.firstEntry result) "error") = false →
      (truthy (getField (Classification.firstEntry result) "class") = false ∨
        truthy (getField (Classification.firstEntry result) "probabilities") = false) →
      Classification.interpretClassificationResponse result =
        Classification.ClassifyOutcome.malformedResponse "Invalid response format from API") := by
  by_cases hE : Classification.hasEnvelope result = true
  · have hE' : (truthy result && truthy (getField result "data") &&
        truthy (Classification.firstEntry result)) = true := hE
    by_cases hErr : truthy (getField (Classification.firstEntry result) "error") = true
    · simp [Classification.interpretClassificationResponse, hE, hE', hErr]
    · by_cases hCP : (truthy (getField (Classification.firstEntry result) "class") &&
          truthy (getField (Classification.firstEntry result) "probabilities")) = true
      · simp only [Bool.and_eq_true] at hCP
        simp [Classification.interpretClassificationResponse, hE, hE', hErr, hCP]
      · simp only [Bool.and_eq_true, not_and_or, Bool.not_eq_true] at hCP
        rcases hCP with hC | hP
        · simp [Classification.interpretClassificationResponse, hE, hE', hErr, hC]
        · simp [Classification.interpretClassificationResponse, hE, hE', hErr, hP]
  · have hE' : ¬ ((truthy result && truthy (getField result "data") &&
        truthy (Classification.firstEntry result)) = true) := hE
    simp [Classification.interpretClassificationResponse, hE, hE']

/-- C1 witness: a well-formed structured response renders; an entry missing
its probability mapping is rejected as malformed. -/
theorem lung_C1_witness :
    Classification.interpretClassificationResponse (JSVal.vObj [("data", JSVal.vArr [apiEntryC7])]) =
      Classification.ClassifyOutcome.rendering apiEntryC7 ∧
    Classification.interpretClassificationResponse respClassOnly =
      Classification.ClassifyOutcome.malformedResponse "Invalid response format from API" := by
  constructor
  · exact ((lung_C1 (JSVal.vObj [("data", JSVal.vArr [apiEntryC7])])).1).mpr
      ⟨rfl, rfl, rfl, rfl⟩
  · exact (lung_C1 respClassOnly).2.2.2 rfl rfl (Or.inr rfl)

/-- C2 counterexample: a failing response does leave the rendered result
content in place, but it does alter the result panel's visibility — with a
previous result on screen, the remote-error response hides the results
panel and shows the empty state. -/
theorem lung_C2_counterexample :
    classStateWithResults.panels.resultsVisible = true ∧
    Classification.interpretClassificationResponse respModelUnavailable =
      Classification.ClassifyOutcome.remoteError "model unavailable" ∧
    (Classification.analyzeImage classStateWithResults
        (RequestResult.response respModelUnavailable)).panels.resultsVisible = false ∧
    (Classification.analyzeImage classStateWithResults
        (RequestResult.response respModelUnavailable)).panels.emptyVisible = true ∧
    (Classification.analyzeImage classStateWithResults
        (RequestResult.response respModelUnavailable)).rendered = some renderedSample :=
  ⟨rfl, rfl, rfl, rfl, rfl⟩

/-- C2 (amended): every failed classification request (connection failure,
remote error, or malformed response) leaves the previously rendered result
content unchanged and surfaces the failure as an appended transient
notification plus an error status, but it does change the result panel's
visibility: the page lands on the empty state, hiding any previously
visible results. -/
theorem lung_C2 (s : Classification.ClassState) (f : JsFile) (req : RequestResult) (m : String)
    (h : Classification.failureMessage req = some m) :
    (Classification.analyzeImage { s with currentImage := some f } req).rendered = s.rendered ∧
    (Classification.analyzeImage { s with currentImage := some f } req).panels =
      ⟨false, false, true⟩ ∧
    (Classification.analyzeImage { s with currentImage := some f } req).notifications =
      s.notifications ++ ["Analysis failed: " ++ m] ∧
    (Classification.analyzeImage { s with currentImage := some f } req).status =
      ("Error", "error") := by
  cases req with
  | connectionError m' =>
    have hm : m' = m := by simpa [Classification.failureMessage] using h
    subst hm
    simp [Classification.analyzeImage, Classification.showLoadingState,
      Classification.updateStatus, Classification.showError, Classification.showEmptyState]
  | response v =>
    rcases hI : Classification.interpretClassificationResponse v with m' | m' | api
    · have hm : m' = m := by
        rw [Classification.failureMessage, hI] at h
        exact Option.some.inj h
      subst hm
      simp [Classification.analyzeImage, hI, Classification.showLoadingState,
        Classification.updateStatus, Classification.showError, Classification.showEmptyState]
    · have hm : m' = m := by
        rw [Classification.failureMessage, hI] at h
        exact Option.some.inj h
      subst hm
      simp [Classification.analyzeImage, hI, Classification.showLoadingState,
        Classification.updateStatus, Classification.showError, Classification.showEmptyState]
    · rw [Classification.failureMessage, hI] at h
      exact absurd h (by simp)

/-- C2 witness: a connection failure on the initial state with an image. -/
theorem lung_C2_witness :
    (Classification.analyzeImage { initialClassState with currentImage := some sampleFile }
        (RequestResult.connectionError "boom")).rendered = none ∧
    (Classification.analyzeImage { initialClassState with currentImage := some sampleFile }
        (RequestResult.connectionError "boom")).panels = ⟨false, false, true⟩ ∧
    (Classification.analyzeImage { initialClassState with currentImage := some sampleFile }
        (RequestResult.connectionError "boom")).notifications = ["Analysis failed: boom"] := by
  have h := lung_C2 initialClassState sampleFile (RequestResult.connectionError "boom") "boom" rfl
  exact ⟨h.1.trans rfl, h.2.1, h.2.2.1.trans rfl⟩

/-- C3 counterexample: the null sentinel of an unusable first item is
filtered out before slot binding, so for the response [null, url] slot 0 is
bound to the url and slot 1 is marked error — not slot 0 error and slot 1
bound as per-index binding would require. -/
theorem lung_C3_counterexample :
    Augmentation.extractRef JSVal.vNull = JSVal.vNull ∧
    Augmentation.interpretAugmentationResponse respNullThenUrl =
      Except.ok [JSVal.vStr "https://host/u1.png"] ∧
    Augmentation.slotBinds [JSVal.vStr "https://host/u1.png"] =
      [true, false, false, false, false, false, false, false] :=
  ⟨rfl, rfl, rfl⟩

/-- C3 (amended): each of the 8 fixed named slots is bound to the i-th
usable reference of the response after absent references are filtered out
(not to the item at the same raw index); slots with no corresponding usable
reference are marked error without an overall failure; for a response of
length 5 with 3 valid URLs then 2 nulls, exactly 3 slots render
loading/loaded and 5 render error. -/
theorem lung_C3 (items : List JSVal) (i : Fin 8) (u1 u2 u3 : String)
    (h1 : u1 ≠ "") (h2 : u2 ≠ "") (h3 : u3 ≠ "") :
    (Augmentation.slotBinds (Augmentation.extractImageUrls items)).getD i false =
      truthy (jsIndex (Augmentation.extractImageUrls items) i) ∧
    Augmentation.interpretAugmentationResponse
        (JSVal.vObj [("data", JSVal.vArr
          [JSVal.vStr u1, JSVal.vStr u2, JSVal.vStr u3, JSVal.vNull, JSVal.vNull])]) =
      Except.ok [JSVal.vStr u1, JSVal.vStr u2, JSVal.vStr u3] ∧
    Augmentation.slotBinds [JSVal.vStr u1, JSVal.vStr u2, JSVal.vStr u3] =
      [true, true, true, false, false, false, false, false] := by
  refine ⟨?_, rfl, ?_⟩
  · rcases i with ⟨iv, hiv⟩
    interval_cases iv <;> rfl
  · simp [Augmentation.slotBinds, jsIndex, truthy, h1, h2, h3, List.range_succ]

/-- C3 witness: the concrete 3-URLs-then-2-nulls response. -/
theorem lung_C3_witness :
    Augmentation.interpretAugmentationResponse
        (JSVal.vObj [("data", JSVal.vArr
          [JSVal.vStr "https://host/a.png", JSVal.vStr "https://host/b.png",
           JSVal.vStr "https://host/c.png", JSVal.vNull, JSVal.vNull])]) =
      Except.ok [JSVal.vStr "https://host/a.png", JSVal.vStr "https://host/b.png",
        JSVal.vStr "https://host/c.png"] ∧
    Augmentation.slotBinds [JSVal.vStr "https://host/a.png", JSVal.vStr "https://host/b.png",
        JSVal.vStr "https://host/c.png"] =
      [true, true, true, false, false, false, false, false] := by
  have h := lung_C3 [] 0 "https://host/a.png" "https://host/b.png" "https://host/c.png"
    (by decide) (by decide) (by decide)
  exact ⟨h.2.1, h.2.2⟩

/-- C4 counterexample: a one-element response whose only item is unusable
has zero usable items, yet the request does not fail as malformed — it
succeeds with an empty reference list, every slot rendering as error. -/
theorem lung_C4_counterexample :
    Augmentation.extractImageUrls [JSVal.vNull] = [] ∧
    Augmentation.interpretAugmentationResponse respSingleNull = Except.ok [] ∧
    Augmentation.slotBinds [] = [false, false, false, false, false, false, false, false] :=
  ⟨rfl, rfl, rfl⟩

/-- C4 (amended): an augmentation payload whose data array is empty fails
with the malformed-response error — and that is the only array shape that
fails: any non-empty array proceeds, even with zero usable items (the slots
then all render as error), and 1-8 usable items populate only the available
slots. -/
theorem lung_C4 (items : List JSVal) :
    ((∃ m, Augmentation.interpretAugmentationResponse (JSVal.vObj [("data", JSVal.vArr items)]) =
        Except.error m) ↔ items = []) ∧
    (items = [] → Augmentation.interpretAugmentationResponse
        (JSVal.vObj [("data", JSVal.vArr items)]) =
      Except.error "Invalid response format - got 0 items, expected at least 1") ∧
    Augmentation.interpretAugmentationResponse (JSVal.vObj [("data", JSVal.vArr
        [JSVal.vNull, JSVal.vNull])]) = Except.ok [] := by
  refine ⟨?_, ?_, rfl⟩
  · cases items with
    | nil => exact ⟨fun _ => rfl, fun _ => ⟨_, rfl⟩⟩
    | cons x xs =>
      constructor
      · rintro ⟨m, hm⟩
        rw [show Augmentation.interpretAugmentationResponse
              (JSVal.vObj [("data", JSVal.vArr (x :: xs))]) =
            Except.ok (Augmentation.extractImageUrls (x :: xs)) from by
          show (if 1 ≤ (x :: xs).length then Except.ok (Augmentation.extractImageUrls (x :: xs))
              else Except.error ("Invalid response format - got " ++
                jsToString (Augmentation.jsLengthVal (JSVal.vArr (x :: xs))) ++
                " items, expected at least 1")) =
            Except.ok (Augmentation.extractImageUrls (x :: xs))
          rw [if_pos (by simp : 1 ≤ (x :: xs).length)]] at hm
        exact Except.noConfusion hm
      · intro h
        exact absurd h (by simp)
  · rintro rfl
    rfl

/-- C4 witness: the empty-array payload fails as malformed. -/
theorem lung_C4_witness :
    Augmentation.interpretAugmentationResponse (JSVal.vObj [("data", JSVal.vArr [])]) =
      Except.error "Invalid response format - got 0 items, expected at least 1" :=
  (lung_C4 []).2.1 rfl

/-- C5 counterexample: on the classification page, entering the in-flight
loading state leaves the analyze button enabled, and on the augmentation
page the terminal failure transition leaves the augment button disabled
instead of re-enabling it. -/
theorem lung_C5_counterexample :
    classStateWithResults.analyzeDisabled = false ∧
    (Classification.showLoadingState classStateWithResults).panels.loadingVisible = true ∧
    (Classification.showLoadingState classStateWithResults).analyzeDisabled = false ∧
    augStateReady.augmentDisabled = false ∧
    (Augmentation.generateAugmentations augStateReady
        (RequestResult.connectionError "boom")).status = ("error", "Failed") ∧
    (Augmentation.generateAugmentations augStateReady
        (RequestResult.connectionError "boom")).augmentDisabled = true :=
  ⟨rfl, rfl, rfl, rfl, rfl, rfl⟩

/-- C5 (amended): only the augmentation page disables its submit control
for the duration of a request — `showLoading` disables it on entry and it
is re-enabled exactly by the success transition, remaining disabled after a
failure; the classification page never changes its submit control's
disabled flag during a request, so a request there does not block
re-submission. -/
theorem lung_C5 (s : Classification.ClassState) (t : Augmentation.AugState) (f : JsFile)
    (req r : RequestResult) :
    (Classification.showLoadingState s).analyzeDisabled = s.analyzeDisabled ∧
    (Classification.analyzeImage s req).analyzeDisabled = s.analyzeDisabled ∧
    (Augmentation.showLoading t).augmentDisabled = true ∧
    (Augmentation.generateAugmentations { t with currentImage := some f } r).augmentDisabled =
      !(Augmentation.augSuccess r) := by
  refine ⟨rfl, ?_, rfl, ?_⟩
  · cases hc : s.currentImage with
    | none =>
      simp [Classification.analyzeImage, hc, Classification.showError,
        Classification.showEmptyState]
    | some f' =>
      cases req with
      | connectionError m =>
        simp [Classification.analyzeImage, hc, Classification.showError,
          Classification.showEmptyState, Classification.showLoadingState,
          Classification.updateStatus]
      | response v =>
        rcases hI : Classification.interpretClassificationResponse v with m | m | api <;>
          simp [Classification.analyzeImage, hc, hI, Classification.showError,
            Classification.showEmptyState, Classification.showLoadingState,
            Classification.updateStatus, Classification.displayResults]
  · cases r with
    | connectionError m =>
      simp [Augmentation.generateAugmentations, Augmentation.augSuccess,
        Augmentation.showLoading, Augmentation.showError, Augmentation.updateStatus]
    | response v =>
      rcases hI : Augmentation.interpretAugmentationResponse v with m | urls <;>
        simp [Augmentation.generateAugmentations, Augmentation.augSuccess, hI,
          Augmentation.showLoading, Augmentation.showError, Augmentation.updateStatus,
          Augmentation.displayAugmentations, Augmentation.hideLoading, Augmentation.showResults]

/-- C5 witness: a concrete failed request on each page. -/
theorem lung_C5_witness :
    (Classification.analyzeImage classStateWithResults
        (RequestResult.connectionError "x")).analyzeDisabled = false ∧
    (Augmentation.generateAugmentations { augStateReady with currentImage := some sampleFile }
        (RequestResult.connectionError "x")).augmentDisabled = true := by
  have h := lung_C5 classStateWithResults augStateReady sampleFile
    (RequestResult.connectionError "x") (RequestResult.connectionError "x")
  exact ⟨h.2.1.trans rfl, h.2.2.2.trans rfl⟩

/-- C9 witness: a factory that never appears exhausts the 50 attempts and
reports the connection unavailable. -/
theorem lung_C9_witness :
    Gradio.pollLoop (fun _ => false) ≤ Gradio.maxPollAttempts ∧
    Gradio.initGradioClient (fun _ => false) (Except.ok ()) =
      Gradio.ConnectOutcome.unavailable := by
  have h := lung_C9 (fun _ => false) (Except.ok ())
  exact ⟨h.1, h.2.2.mpr (Or.inl rfl)⟩
